import Mathlib

/-!
Shallow embedding of the auth/validation/mutation discipline of the
saas-starter CRM: the Zod entity schemas (`src/schemas`), the Server Action
mutation handlers for contacts (`src/actions/contacts`), the error taxonomy
(`src/lib/errors.ts`), the route guard (`src/lib/supabase/middleware.ts`) and
the Stripe webhook endpoint (`src/app/api/webhooks/stripe/route.ts`).

Raw form input is `FormData` passed through `Object.fromEntries`, so every
raw field is an optional string. Validated values, error maps and handler
outcomes are modelled as plain data so that handlers become total functions
from (identity, database state, input) to (structured result, database state,
statement count, revalidated paths).
-/

/- ## JavaScript / Zod string primitives -/

/-- Whitespace recognised by JS `String.prototype.trim` (ASCII part). -/
def isJsSpace (c : Char) : Bool :=
  c.toNat == 32 || c.toNat == 9 || c.toNat == 10 ||
  c.toNat == 11 || c.toNat == 12 || c.toNat == 13

/-- JS `String.prototype.trim`, used by Zod's `.trim()` transform. -/
def jsTrim (s : String) : String :=
  ⟨((s.data.dropWhile isJsSpace).reverse.dropWhile isJsSpace).reverse⟩

/-- JS `String.prototype.toLowerCase` (ASCII), used by `.toLowerCase()`. -/
def jsToLower (s : String) : String :=
  ⟨s.data.map Char.toLower⟩

/-- JS `String.prototype.startsWith` over character lists. -/
def charsStartWith : List Char → List Char → Bool
  | _, [] => true
  | [], _ :: _ => false
  | a :: as, b :: bs => a == b && charsStartWith as bs

/-- JS `String.prototype.includes` over character lists. -/
def charsContain (l pat : List Char) : Bool :=
  match l with
  | [] => charsStartWith [] pat
  | c :: rest => charsStartWith (c :: rest) pat || charsContain rest pat

/-- JS falsiness of a nullable string (`!v`): true exactly for `null` and
the empty string. -/
def jsFalsy (v : Option String) : Bool :=
  v.getD "" == ""

/-- JS `v || fallback` on a nullable string: `null` and the empty string
both take the fallback. -/
def jsOrElse (v : Option String) (dflt : String) : String :=
  if jsFalsy v then dflt else v.getD dflt

/-- Character class `[A-Z0-9_'+\-\.]` (case-insensitive) of the local part of
Zod's email regular expression. -/
def emailLocalChar (c : Char) : Bool :=
  c.isAlpha || c.isDigit || c = '_' || c = Char.ofNat 39 || c = '+' || c = '-' || c = '.'

/-- Character class `[A-Z0-9_+\-]` required of the last local-part character. -/
def emailLocalEndChar (c : Char) : Bool :=
  c.isAlpha || c.isDigit || c = '_' || c = '+' || c = '-'

/-- Character class `[A-Z0-9\-]` of a domain label tail. -/
def emailLabelChar (c : Char) : Bool :=
  c.isAlpha || c.isDigit || c = '-'

/-- Lookahead `(?!.*\.\.)` of the email regular expression: no two
consecutive dots anywhere in the candidate string. -/
def noDoubleDot : List Char → Bool
  | [] => true
  | [_] => true
  | a :: b :: rest => !(a = '.' && b = '.') && noDoubleDot (b :: rest)

/-- Local part `([A-Z0-9_'+\-\.]*)[A-Z0-9_+\-]`: nonempty, all characters in
the local class, ending in the restricted class. -/
def emailLocalOk (l : List Char) : Bool :=
  match l.reverse with
  | [] => false
  | last :: initRev => emailLocalEndChar last && initRev.all emailLocalChar

/-- One domain label `[A-Z0-9][A-Z0-9\-]*`. -/
def emailDomainLabelOk (l : List Char) : Bool :=
  match l with
  | [] => false
  | c :: rest => (c.isAlpha || c.isDigit) && rest.all emailLabelChar

/-- Top-level domain `[A-Z]{2,}`. -/
def emailTldOk (l : List Char) : Bool :=
  decide (2 ≤ l.length) && l.all Char.isAlpha

/-- Domain `([A-Z0-9][A-Z0-9\-]*\.)+[A-Z]{2,}`: at least one label before a
letters-only TLD. -/
def emailDomainOk (d : List Char) : Bool :=
  match (d.splitOn '.').reverse with
  | [] => false
  | [_] => false
  | tld :: labelsRev => emailTldOk tld && labelsRev.all emailDomainLabelOk

/-- Zod's `.email()` check: the regular expression
`^(?!\.)(?!.*\.\.)([A-Z0-9_'+\-\.]*)[A-Z0-9_+\-]@([A-Z0-9][A-Z0-9\-]*\.)+[A-Z]{2,}$`
(case-insensitive). The local and domain classes exclude `@`, so the regular
expression matches exactly the strings with a single `@`. -/
def isEmail (s : String) : Bool :=
  match s.data.splitOn '@' with
  | [lp, dp] =>
    (match s.data with
     | [] => false
     | c :: _ => c != '.') &&
    noDoubleDot s.data && emailLocalOk lp && emailDomainOk dp
  | _ => false

/-- The phone regular expression `^\+?[1-9]\d{1,14}$` of `phoneSchema`. -/
def isPhone (s : String) : Bool :=
  let cs := match s.data with
    | '+' :: rest => rest
    | l => l
  match cs with
  | [] => false
  | c :: rest =>
    ('1' ≤ c && c ≤ '9') && rest.all Char.isDigit &&
    decide (1 ≤ rest.length) && decide (rest.length ≤ 14)

/-- Hexadecimal digits, either case. -/
def isHexChar (c : Char) : Bool :=
  c.isDigit || ('a' ≤ c && c ≤ 'f') || ('A' ≤ c && c ≤ 'F')

/-- Zod's `.uuid()` check: five hyphen-separated hexadecimal groups of
lengths 8-4-4-4-12. -/
def isUuid (s : String) : Bool :=
  match s.data.splitOn '-' with
  | [a, b, c, d, e] =>
    a.length == 8 && b.length == 4 && c.length == 4 && d.length == 4 && e.length == 12 &&
    a.all isHexChar && b.all isHexChar && c.all isHexChar && d.all isHexChar && e.all isHexChar
  | _ => false

/-- Scheme tail: after the first letter, letters, digits, `+`, `-` or `.`
until a terminating colon. -/
def urlSchemeRest : List Char → Bool
  | [] => false
  | c :: rest => c = ':' || ((c.isAlpha || c.isDigit || c = '+' || c = '-' || c = '.') && urlSchemeRest rest)

/-- Acceptance test of the platform URL parser behind `z.string().url()`:
a string parses as a URL when it opens with a scheme (letter, then letters,
digits, `+`, `-`, `.`) terminated by a colon. The empty string and bare words
are rejected, as `new URL` rejects them. -/
def isUrl (s : String) : Bool :=
  match s.data with
  | [] => false
  | c :: rest => c.isAlpha && urlSchemeRest rest

/-- Digit run to a number, for JS numeric coercion. -/
def digitsToNat (l : List Char) : Nat :=
  l.foldl (fun a c => a * 10 + (c.toNat - 48)) 0

/-- JS `Number(string)` coercion used by `z.coerce.number()`, restricted to
the integer inputs the currency/percentage chains accept: surrounding
whitespace is ignored, the empty string coerces to `0`, an optional sign
is followed by decimal digits; anything else is NaN / non-integral,
returned as `none`. -/
def jsNumberInt (s : String) : Option Int :=
  match (jsTrim s).data with
  | [] => some 0
  | '-' :: rest =>
    if rest.isEmpty then none
    else if rest.all Char.isDigit then some (-(digitsToNat rest : Int)) else none
  | '+' :: rest =>
    if rest.isEmpty then none
    else if rest.all Char.isDigit then some (digitsToNat rest : Int) else none
  | l => if l.all Char.isDigit then some (digitsToNat l : Int) else none

/- ## Zod chain combinators

A chained string schema is a list of checks; Zod runs every check and
collects the message of each failing one, in chain order. -/

/-- Run a chain of string checks, collecting the failing messages. -/
def runChecks (checks : List ((String → Bool) × String)) (s : String) : List String :=
  (checks.filter (fun ch => !ch.1 s)).map (fun ch => ch.2)

/-- Chained `z.string()` on a required object field: a missing key raises
Zod's default invalid-type issue `Required`; a present string runs the
chain. -/
def requiredStringErrs (checks : List ((String → Bool) × String)) : Option String → List String
  | none => ["Required"]
  | some s => runChecks checks s

/-- The same chain after `.partial()`: the key may now be absent. -/
def partialStringErrs (checks : List ((String → Bool) × String)) : Option String → List String
  | none => []
  | some s => runChecks checks s

/-- Pattern `.optional().or(z.literal(''))`: a missing key and the empty
string are accepted; otherwise the inner check must hold; a failing union
raises Zod's invalid-union issue `Invalid input`. -/
def optionalOrEmptyErrs (check : String → Bool) : Option String → List String
  | none => []
  | some s => if check s || s == "" then [] else ["Invalid input"]

/-- Output of `.optional().or(z.literal('')).transform(v => v || undefined)`
when no issue was raised: the empty string normalizes to an absent value. -/
def optionalOrEmptyValue : Option String → Option String
  | none => none
  | some s => if s == "" then none else some s

/-- Pattern `z.enum(vs).optional().default(d)` issues: a missing key takes
the default without checks; a present value must be a member (the message
abbreviates Zod's invalid-enum issue). -/
def enumDefaultErrs (values : List String) : Option String → List String
  | none => []
  | some s => if values.contains s then [] else ["Invalid enum value"]

/-- Value of `z.enum(vs).optional().default(d)`. -/
def enumDefaultValue (dflt : String) : Option String → String
  | none => dflt
  | some s => s

/-- Chained `z.coerce.number().int()....optional()` issues: a missing key is
accepted; a present string is coerced and the numeric checks run (the NaN
and non-integer messages abbreviate Zod's invalid-type issues). -/
def coerceIntErrs (checks : List ((Int → Bool) × String)) : Option String → List String
  | none => []
  | some s =>
    match jsNumberInt s with
    | none => ["Expected number, received nan"]
    | some n => (checks.filter (fun ch => !ch.1 n)).map (fun ch => ch.2)

/-- Value of a coerced optional integer chain. -/
def coerceIntValue : Option String → Option Int
  | none => none
  | some s => jsNumberInt s

/- ## Zod object schemas as field lists -/

/-- One field of a Zod object schema over raw input of type `R`: its key,
its projection out of the raw input, and the issues its chain raises. -/
structure ZodField (R : Type) where
  name : String
  proj : R → Option String
  errs : Option String → List String

/-- The `error.flatten().fieldErrors` map of a failed object parse: one
entry per field that raised at least one issue, in shape order. -/
def fieldErrorsOf {R : Type} (fields : List (ZodField R)) (raw : R) : List (String × List String) :=
  (fields.map (fun f => (f.name, f.errs (f.proj raw)))).filter (fun p => !p.2.isEmpty)

/-- Messages recorded against one field key in a flattened error map. -/
def errsFor (name : String) (l : List (String × List String)) : List String :=
  ((l.filter (fun p => p.1 == name)).map (fun p => p.2)).flatten

instance {ε α : Type} [DecidableEq ε] [DecidableEq α] : DecidableEq (Except ε α) := fun x y =>
  match x, y with
  | .ok a, .ok b => decidable_of_iff (a = b) (by simp)
  | .error a, .error b => decidable_of_iff (a = b) (by simp)
  | .ok _, .error _ => isFalse (by simp)
  | .error _, .ok _ => isFalse (by simp)

/- ## Contact schema (src/schemas/contacts.ts) -/

/-- Enum values of `contactTypes`. -/
def contactTypes : List String := ["lead", "customer", "partner", "vendor", "other"]

/-- Raw contact form input: `Object.fromEntries(formData)` yields string
values, with absent keys for fields the form did not submit. -/
structure ContactRaw where
  firstName : Option String
  lastName : Option String
  email : Option String
  phone : Option String
  title : Option String
  type : Option String
  organizationId : Option String
  notes : Option String
  linkedinUrl : Option String
  twitterUrl : Option String
deriving DecidableEq

/-- Checks of `emailSchema`: `.min(1, 'Email is required').email('Invalid
email address')`. -/
def emailChecks : List ((String → Bool) × String) :=
  [(fun s => decide (1 ≤ s.length), "Email is required"),
   (isEmail, "Invalid email address")]

/-- Fields of `contactSchema`, in shape order, each carrying its chain. -/
def contactFields : List (ZodField ContactRaw) :=
  [⟨"firstName", (fun r => r.firstName),
    requiredStringErrs
      [(fun s => decide (1 ≤ s.length), "First name is required"),
       (fun s => decide (s.length ≤ 100), "First name must be less than 100 characters")]⟩,
   ⟨"lastName", (fun r => r.lastName),
    requiredStringErrs
      [(fun s => decide (1 ≤ s.length), "Last name is required"),
       (fun s => decide (s.length ≤ 100), "Last name must be less than 100 characters")]⟩,
   ⟨"email", (fun r => r.email), requiredStringErrs emailChecks⟩,
   ⟨"phone", (fun r => r.phone), optionalOrEmptyErrs isPhone⟩,
   ⟨"title", (fun r => r.title),
    optionalOrEmptyErrs (fun s => decide (s.length ≤ 100))⟩,
   ⟨"type", (fun r => r.type), enumDefaultErrs contactTypes⟩,
   ⟨"organizationId", (fun r => r.organizationId), optionalOrEmptyErrs isUuid⟩,
   ⟨"notes", (fun r => r.notes),
    optionalOrEmptyErrs (fun s => decide (s.length ≤ 2000))⟩,
   ⟨"linkedinUrl", (fun r => r.linkedinUrl), optionalOrEmptyErrs isUrl⟩,
   ⟨"twitterUrl", (fun r => r.twitterUrl), optionalOrEmptyErrs isUrl⟩]

/-- Validated output of `contactSchema` (`ContactInput` in the source). -/
structure ContactInput where
  firstName : String
  lastName : String
  email : String
  phone : Option String
  title : Option String
  type : String
  organizationId : Option String
  notes : Option String
  linkedinUrl : Option String
  twitterUrl : Option String
deriving DecidableEq

/-- Values produced by the transforms of `contactSchema` when every check
passed: `.trim()` on names, `.toLowerCase().trim()` on email, empty-string
normalization on the optional fields, `'lead'` default on `type`. -/
def contactValue (raw : ContactRaw) : ContactInput where
  firstName := jsTrim (raw.firstName.getD "")
  lastName := jsTrim (raw.lastName.getD "")
  email := jsTrim (jsToLower (raw.email.getD ""))
  phone := optionalOrEmptyValue raw.phone
  title := optionalOrEmptyValue raw.title
  type := enumDefaultValue "lead" raw.type
  organizationId := optionalOrEmptyValue raw.organizationId
  notes := optionalOrEmptyValue raw.notes
  linkedinUrl := optionalOrEmptyValue raw.linkedinUrl
  twitterUrl := optionalOrEmptyValue raw.twitterUrl

/-- `contactSchema.safeParse`. -/
def contactSafeParse (raw : ContactRaw) : Except (List (String × List String)) ContactInput :=
  match fieldErrorsOf contactFields raw with
  | [] => .ok (contactValue raw)
  | errs => .error errs

/-- Fields of `contactUpdateSchema = contactSchema.partial()`: identical
chains, but every key may be absent. -/
def contactUpdateFields : List (ZodField ContactRaw) :=
  [⟨"firstName", (fun r => r.firstName),
    partialStringErrs
      [(fun s => decide (1 ≤ s.length), "First name is required"),
       (fun s => decide (s.length ≤ 100), "First name must be less than 100 characters")]⟩,
   ⟨"lastName", (fun r => r.lastName),
    partialStringErrs
      [(fun s => decide (1 ≤ s.length), "Last name is required"),
       (fun s => decide (s.length ≤ 100), "Last name must be less than 100 characters")]⟩,
   ⟨"email", (fun r => r.email), partialStringErrs emailChecks⟩,
   ⟨"phone", (fun r => r.phone), optionalOrEmptyErrs isPhone⟩,
   ⟨"title", (fun r => r.title),
    optionalOrEmptyErrs (fun s => decide (s.length ≤ 100))⟩,
   ⟨"type", (fun r => r.type), enumDefaultErrs contactTypes⟩,
   ⟨"organizationId", (fun r => r.organizationId), optionalOrEmptyErrs isUuid⟩,
   ⟨"notes", (fun r => r.notes),
    optionalOrEmptyErrs (fun s => decide (s.length ≤ 2000))⟩,
   ⟨"linkedinUrl", (fun r => r.linkedinUrl), optionalOrEmptyErrs isUrl⟩,
   ⟨"twitterUrl", (fun r => r.twitterUrl), optionalOrEmptyErrs isUrl⟩]

/-- Validated output of `contactUpdateSchema`: every field optional; an
absent key stays absent (no `'lead'` default under `.partial()`). -/
structure ContactUpdateInput where
  firstName : Option String
  lastName : Option String
  email : Option String
  phone : Option String
  title : Option String
  type : Option String
  organizationId : Option String
  notes : Option String
  linkedinUrl : Option String
  twitterUrl : Option String
deriving DecidableEq

/-- Transform outputs of `contactUpdateSchema` when every check passed. -/
def contactUpdateValue (raw : ContactRaw) : ContactUpdateInput where
  firstName := raw.firstName.map jsTrim
  lastName := raw.lastName.map jsTrim
  email := raw.email.map (fun s => jsTrim (jsToLower s))
  phone := optionalOrEmptyValue raw.phone
  title := optionalOrEmptyValue raw.title
  type := raw.type
  organizationId := optionalOrEmptyValue raw.organizationId
  notes := optionalOrEmptyValue raw.notes
  linkedinUrl := optionalOrEmptyValue raw.linkedinUrl
  twitterUrl := optionalOrEmptyValue raw.twitterUrl

/-- `contactUpdateSchema.safeParse`. -/
def contactUpdateSafeParse (raw : ContactRaw) :
    Except (List (String × List String)) ContactUpdateInput :=
  match fieldErrorsOf contactUpdateFields raw with
  | [] => .ok (contactUpdateValue raw)
  | errs => .error errs

/- ## Error taxonomy (src/lib/errors.ts) -/

/-- Errors thrown inside a Server Action handler and caught at its boundary:
the `AppError` hierarchy of `src/lib/errors.ts`, plus a plain JS `Error`
(database faults classified by message inspection) and non-`Error` throws. -/
inductive ThrownError where
  | authenticationError
  | authorizationError
  | notFoundError (resource : String)
  | validationError (message : String) (errors : List (String × List String))
  | conflictError (message : String)
  | appError (message : String) (code : String)
  | jsError (message : String)
  | nonError
deriving DecidableEq

/-- JS `String.prototype.includes`. -/
def hasSubstring (s pat : String) : Bool :=
  charsContain s.data pat.data

/-- A contacts table row (`src/db/schema/contacts.ts`): id, owner foreign
key, the schema fields, and timestamps (modelled as abstract ticks). -/
structure Contact where
  id : String
  userId : String
  firstName : String
  lastName : String
  email : String
  phone : Option String
  title : Option String
  type : String
  organizationId : Option String
  notes : Option String
  linkedinUrl : Option String
  twitterUrl : Option String
  createdAt : Nat
  updatedAt : Nat
deriving DecidableEq

/-- Structured result of a Server Action (`ActionResult` in `src/types/api.ts`):
`{success:true, data?, message?}` or `{success:false, error?, errors?}`. An
omitted `errors` map is the empty list, an omitted `error`/`message`/`data`
is `none`. -/
inductive ActionResult where
  | success (data : Option Contact) (message : Option String)
  | failure (error : Option String) (errors : List (String × List String))
deriving DecidableEq

/-- `handleActionError`: converts a caught error into an `ActionResult`,
checking `ValidationError` first, then the `AppError` hierarchy, then
message-pattern classification of database faults, with a generic fallback. -/
def handleActionError : ThrownError → ActionResult
  | .validationError _ errs => .failure none errs
  | .authenticationError => .failure (some "You must be logged in to perform this action") []
  | .authorizationError => .failure (some "You are not authorized to perform this action") []
  | .notFoundError r => .failure (some (r ++ " not found")) []
  | .conflictError m => .failure (some m) []
  | .appError m _ => .failure (some m) []
  | .jsError m =>
    if hasSubstring m "unique constraint" then
      .failure (some "A record with this value already exists") []
    else if hasSubstring m "foreign key constraint" then
      .failure (some "Referenced record does not exist") []
    else
      .failure (some "An unexpected error occurred. Please try again.") []
  | .nonError => .failure (some "An unexpected error occurred. Please try again.") []

/- ## Contact mutation handlers (src/actions/contacts) -/

/-- The verified identity returned by `supabase.auth.getUser()`. -/
structure AuthUser where
  id : String
  email : String
deriving DecidableEq

/-- Observable outcome of one handler invocation: the structured result, the
contacts table afterwards, how many data-layer statements executed, and the
paths passed to `revalidatePath`. -/
structure ActionOutcome where
  result : ActionResult
  db : List Contact
  dbStatements : Nat
  revalidated : List String
deriving DecidableEq

/-- The `WHERE` clause `and(eq(contacts.id, id), eq(contacts.userId, userId))`
shared by the update and delete statements. -/
def contactMatches (id userId : String) (c : Contact) : Bool :=
  decide (c.id = id ∧ c.userId = userId)

/-- `createContact`: authenticate, validate via `contactSchema`, insert a row
owned by the caller, revalidate `/contacts`. -/
def createContact (user : Option AuthUser) (db : List Contact) (newId : String)
    (now : Nat) (raw : ContactRaw) : ActionOutcome :=
  match user with
  | none => ⟨handleActionError .authenticationError, db, 0, []⟩
  | some u =>
    match contactSafeParse raw with
    | .error fieldErrors => ⟨.failure none fieldErrors, db, 0, []⟩
    | .ok data =>
      let contact : Contact :=
        { id := newId, userId := u.id,
          firstName := data.firstName, lastName := data.lastName, email := data.email,
          phone := data.phone, title := data.title, type := data.type,
          organizationId := data.organizationId, notes := data.notes,
          linkedinUrl := data.linkedinUrl, twitterUrl := data.twitterUrl,
          createdAt := now, updatedAt := now }
      ⟨.success (some contact) (some "Contact created successfully"),
       db ++ [contact], 1, ["/contacts"]⟩

/-- Effect of the drizzle `.set({...data, updatedAt: new Date()})` on one
matched row: keys whose validated value is absent (either never submitted or
normalized away from the empty string) are skipped by the driver, so the
stored value is kept. -/
def applyContactUpdate (now : Nat) (d : ContactUpdateInput) (c : Contact) : Contact :=
  { c with
    firstName := d.firstName.getD c.firstName,
    lastName := d.lastName.getD c.lastName,
    email := d.email.getD c.email,
    phone := (d.phone.map some).getD c.phone,
    title := (d.title.map some).getD c.title,
    type := d.type.getD c.type,
    organizationId := (d.organizationId.map some).getD c.organizationId,
    notes := (d.notes.map some).getD c.notes,
    linkedinUrl := (d.linkedinUrl.map some).getD c.linkedinUrl,
    twitterUrl := (d.twitterUrl.map some).getD c.twitterUrl,
    updatedAt := now }

/-- `updateContact`: authenticate, validate via `contactUpdateSchema`, run one
`UPDATE ... WHERE id = ? AND userId = ? RETURNING *`; an empty returning set
raises `NotFoundError('Contact')`, caught at the boundary. -/
def updateContact (user : Option AuthUser) (db : List Contact) (id : String)
    (now : Nat) (raw : ContactRaw) : ActionOutcome :=
  match user with
  | none => ⟨handleActionError .authenticationError, db, 0, []⟩
  | some u =>
    match contactUpdateSafeParse raw with
    | .error fieldErrors => ⟨.failure none fieldErrors, db, 0, []⟩
    | .ok data =>
      let newDb := db.map (fun c => if contactMatches id u.id c then applyContactUpdate now data c else c)
      match newDb.filter (contactMatches id u.id) with
      | [] => ⟨handleActionError (.notFoundError "Contact"), newDb, 1, []⟩
      | c :: _ =>
        ⟨.success (some c) (some "Contact updated successfully"),
         newDb, 1, ["/contacts", "/contacts/" ++ id]⟩

/-- `deleteContact`: authenticate, then run one
`DELETE ... WHERE id = ? AND userId = ? RETURNING *` (no input validation
step exists in this handler); an empty returning set raises
`NotFoundError('Contact')`, caught at the boundary. This models the
statement's row matching, which is exact whenever the id is a well-formed
uuid; `pgDeleteContact` below adds the data layer's uuid cast, which makes
the statement itself fault on a malformed id before any row is matched. -/
def deleteContact (user : Option AuthUser) (db : List Contact) (id : String) : ActionOutcome :=
  match user with
  | none => ⟨handleActionError .authenticationError, db, 0, []⟩
  | some u =>
    let deleted := db.filter (contactMatches id u.id)
    let remaining := db.filter (fun c => !contactMatches id u.id c)
    if deleted.length == 0 then
      ⟨handleActionError (.notFoundError "Contact"), remaining, 1, []⟩
    else
      ⟨.success none (some "Contact deleted successfully"), remaining, 1, ["/contacts"]⟩

/-- `pathname.startsWith(route)`. -/
def strStartsWith (s pat : String) : Bool :=
  charsStartWith s.data pat.data

/-- The `protectedRoutes` list of `updateSession`. -/
def protectedRoutes : List String :=
  ["/dashboard", "/contacts", "/organizations", "/deals", "/settings"]

/-- The `authRoutes` list of `updateSession`. -/
def authRoutes : List String :=
  ["/login", "/register", "/reset-password"]

/-- An inbound request as the guard observes it: the path and the
`redirectTo` query parameter (if present). -/
structure GuardRequest where
  pathname : String
  redirectToParam : Option String
deriving DecidableEq

/-- Guard decision: pass the request through, or redirect to a path whose
query string carries at most a `redirectTo` parameter. -/
inductive GuardResponse where
  | next
  | redirect (pathname : String) (redirectToParam : Option String)
deriving DecidableEq

/-- `updateSession` redirect logic: a protected path with no verified user
redirects to `/login` with `redirectTo` set to the original path; an auth
path with a user present redirects to
`url.searchParams.get('redirectTo') || '/dashboard'` — the parameter's value
when present and nonempty, `/dashboard` when it is missing or empty (JS `||`
falsiness) — dropping the parameter; everything else passes through. -/
def updateSession (user : Option AuthUser) (req : GuardRequest) : GuardResponse :=
  let isProtectedRoute := protectedRoutes.any (fun r => strStartsWith req.pathname r)
  let isAuthRoute := authRoutes.any (fun r => strStartsWith req.pathname r)
  if isProtectedRoute && user.isNone then
    .redirect "/login" (some req.pathname)
  else if isAuthRoute && user.isSome then
    .redirect (jsOrElse req.redirectToParam "/dashboard") none
  else
    .next

/- ## Stripe webhook endpoint (src/app/api/webhooks/stripe/route.ts) -/

/-- An inbound webhook request: the raw body and the `stripe-signature`
header (if present). -/
structure WebhookRequest where
  body : String
  stripeSignature : Option String
deriving DecidableEq

/-- JSON responses the endpoint can produce: an error body with a status, or
the placeholder acknowledgment body (HTTP 200). -/
inductive WebhookResponse where
  | jsonError (error : String) (status : Nat)
  | jsonOk (message : String) (received : Bool)
deriving DecidableEq

/-- Whether a response is an error response. -/
def WebhookResponse.isError : WebhookResponse → Bool
  | .jsonError _ _ => true
  | .jsonOk _ _ => false

/-- Outcome of one webhook invocation: the response plus the events actually
processed (side effects). -/
structure WebhookOutcome where
  response : WebhookResponse
  processedEvents : List String
deriving DecidableEq

/-- The `POST` handler: the guard `if (!signature)` is a JS falsiness check,
so a missing or empty `stripe-signature` header is rejected with 400; any
request carrying a nonempty header gets the placeholder acknowledgment. The
Stripe `constructEvent` verification and the event `switch` are commented
out in the source pending configuration, so no signature contents are
verified and no event is processed on any path. -/
def webhookPOST (req : WebhookRequest) : WebhookOutcome :=
  if jsFalsy req.stripeSignature then
    ⟨.jsonError "Missing stripe-signature header" 400, []⟩
  else
    ⟨.jsonOk "Stripe webhook endpoint ready. Configure Stripe to enable." true, []⟩

/- ## Auth schemas (src/schemas/auth.ts) -/

/-- Raw registration form input. -/
structure RegisterRaw where
  email : Option String
  password : Option String
  confirmPassword : Option String
  fullName : Option String
deriving DecidableEq

/-- Password chain shared by `registerSchema` and `resetPasswordSchema`:
`.min(8).regex(/[A-Z]/).regex(/[a-z]/).regex(/[0-9]/)`. -/
def passwordChecks : List ((String → Bool) × String) :=
  [(fun s => decide (8 ≤ s.length), "Password must be at least 8 characters"),
   (fun s => s.data.any Char.isUpper, "Password must contain at least one uppercase letter"),
   (fun s => s.data.any Char.isLower, "Password must contain at least one lowercase letter"),
   (fun s => s.data.any Char.isDigit, "Password must contain at least one number")]

/-- Base object fields of `registerSchema` (before its `.refine`). -/
def registerFields : List (ZodField RegisterRaw) :=
  [⟨"email", (fun r => r.email), requiredStringErrs emailChecks⟩,
   ⟨"password", (fun r => r.password), requiredStringErrs passwordChecks⟩,
   ⟨"confirmPassword", (fun r => r.confirmPassword),
    requiredStringErrs [(fun s => decide (1 ≤ s.length), "Please confirm your password")]⟩,
   ⟨"fullName", (fun r => r.fullName),
    requiredStringErrs
      [(fun s => decide (2 ≤ s.length), "Name must be at least 2 characters"),
       (fun s => decide (s.length ≤ 100), "Name must be less than 100 characters")]⟩]

/-- Flattened field errors of `registerSchema.safeParse`: Zod runs the
`.refine((d) => d.password === d.confirmPassword, {path:['confirmPassword']})`
only when the base object parse succeeded. -/
def registerErrors (raw : RegisterRaw) : List (String × List String) :=
  match fieldErrorsOf registerFields raw with
  | [] =>
    if raw.password == raw.confirmPassword then []
    else [("confirmPassword", ["Passwords do not match"])]
  | errs => errs

/-- Raw reset-password form input. -/
structure ResetPasswordRaw where
  password : Option String
  confirmPassword : Option String
deriving DecidableEq

/-- Base object fields of `resetPasswordSchema` (before its `.refine`). -/
def resetPasswordFields : List (ZodField ResetPasswordRaw) :=
  [⟨"password", (fun r => r.password), requiredStringErrs passwordChecks⟩,
   ⟨"confirmPassword", (fun r => r.confirmPassword),
    requiredStringErrs [(fun s => decide (1 ≤ s.length), "Please confirm your password")]⟩]

/-- Flattened field errors of `resetPasswordSchema.safeParse`: the same
password-confirmation `.refine` as registration, run after a successful base
parse. -/
def resetPasswordErrors (raw : ResetPasswordRaw) : List (String × List String) :=
  match fieldErrorsOf resetPasswordFields raw with
  | [] =>
    if raw.password == raw.confirmPassword then []
    else [("confirmPassword", ["Passwords do not match"])]
  | errs => errs

/-- Raw login form input. -/
structure LoginRaw where
  email : Option String
  password : Option String
deriving DecidableEq

/-- Fields of `loginSchema`. -/
def loginFields : List (ZodField LoginRaw) :=
  [⟨"email", (fun r => r.email), requiredStringErrs emailChecks⟩,
   ⟨"password", (fun r => r.password),
    requiredStringErrs [(fun s => decide (1 ≤ s.length), "Password is required")]⟩]

/-- Raw forgot-password form input. -/
structure ForgotPasswordRaw where
  email : Option String
deriving DecidableEq

/-- Fields of `forgotPasswordSchema`. -/
def forgotPasswordFields : List (ZodField ForgotPasswordRaw) :=
  [⟨"email", (fun r => r.email), requiredStringErrs emailChecks⟩]

/-- Raw profile-update form input. -/
structure UpdateProfileRaw where
  fullName : Option String
  avatarUrl : Option String
deriving DecidableEq

/-- Fields of `updateProfileSchema`: optional `fullName` with length bounds
(no empty-string branch) and `avatarUrl` accepting a URL or the empty
string. -/
def updateProfileFields : List (ZodField UpdateProfileRaw) :=
  [⟨"fullName", (fun r => r.fullName),
    partialStringErrs
      [(fun s => decide (2 ≤ s.length), "Name must be at least 2 characters"),
       (fun s => decide (s.length ≤ 100), "Name must be less than 100 characters")]⟩,
   ⟨"avatarUrl", (fun r => r.avatarUrl), optionalOrEmptyErrs isUrl⟩]

/- ## Deal schema (src/schemas/deals.ts) -/

/-- Enum values of `dealStages`. -/
def dealStages : List String :=
  ["lead", "qualified", "proposal", "negotiation", "closed_won", "closed_lost"]

/-- Raw deal form input. -/
structure DealRaw where
  title : Option String
  description : Option String
  value : Option String
  currency : Option String
  stage : Option String
  probability : Option String
  contactId : Option String
  organizationId : Option String
  expectedCloseDate : Option String
  notes : Option String
deriving DecidableEq

/-- Issues of `z.string().length(3).default('USD')`: a missing key takes the
default; a present string must have length exactly 3. -/
def currencyCodeErrs : Option String → List String
  | none => []
  | some s => if s.length == 3 then [] else ["Currency must be a 3-letter code"]

/-- Issues of `expectedCloseDate`: `z.string().optional().or(z.literal(''))`
with no checks accepts every string. -/
def anyStringErrs : Option String → List String
  | _ => []

/-- Fields of `dealSchema`, in shape order. -/
def dealFields : List (ZodField DealRaw) :=
  [⟨"title", (fun r => r.title),
    requiredStringErrs
      [(fun s => decide (1 ≤ s.length), "Deal title is required"),
       (fun s => decide (s.length ≤ 200), "Title must be less than 200 characters")]⟩,
   ⟨"description", (fun r => r.description),
    optionalOrEmptyErrs (fun s => decide (s.length ≤ 2000))⟩,
   ⟨"value", (fun r => r.value),
    coerceIntErrs [(fun n => decide (0 ≤ n), "Amount must be positive")]⟩,
   ⟨"currency", (fun r => r.currency), currencyCodeErrs⟩,
   ⟨"stage", (fun r => r.stage), enumDefaultErrs dealStages⟩,
   ⟨"probability", (fun r => r.probability),
    coerceIntErrs
      [(fun n => decide (0 ≤ n), "Must be at least 0"),
       (fun n => decide (n ≤ 100), "Must be at most 100")]⟩,
   ⟨"contactId", (fun r => r.contactId), optionalOrEmptyErrs isUuid⟩,
   ⟨"organizationId", (fun r => r.organizationId), optionalOrEmptyErrs isUuid⟩,
   ⟨"expectedCloseDate", (fun r => r.expectedCloseDate), anyStringErrs⟩,
   ⟨"notes", (fun r => r.notes),
    optionalOrEmptyErrs (fun s => decide (s.length ≤ 2000))⟩]

/-- Validated output of `dealSchema` (`DealInput` in the source). -/
structure DealInput where
  title : String
  description : Option String
  value : Option Int
  currency : String
  stage : String
  probability : Option Int
  contactId : Option String
  organizationId : Option String
  expectedCloseDate : Option String
  notes : Option String
deriving DecidableEq

/-- Transform outputs of `dealSchema` when every check passed. -/
def dealValueOf (raw : DealRaw) : DealInput where
  title := jsTrim (raw.title.getD "")
  description := optionalOrEmptyValue raw.description
  value := coerceIntValue raw.value
  currency := raw.currency.getD "USD"
  stage := enumDefaultValue "lead" raw.stage
  probability := coerceIntValue raw.probability
  contactId := optionalOrEmptyValue raw.contactId
  organizationId := optionalOrEmptyValue raw.organizationId
  expectedCloseDate := optionalOrEmptyValue raw.expectedCloseDate
  notes := optionalOrEmptyValue raw.notes

/-- `dealSchema.safeParse`. -/
def dealSafeParse (raw : DealRaw) : Except (List (String × List String)) DealInput :=
  match fieldErrorsOf dealFields raw with
  | [] => .ok (dealValueOf raw)
  | errs => .error errs

/- ## Organization schema (src/schemas/organizations.ts) -/

/-- Raw organization form input. -/
structure OrganizationRaw where
  name : Option String
  website : Option String
  industry : Option String
  description : Option String
  address : Option String
  city : Option String
  state : Option String
  country : Option String
  postalCode : Option String
  employeeCount : Option String
  annualRevenue : Option String
  linkedinUrl : Option String
  logoUrl : Option String
deriving DecidableEq

/-- Issues of `employeeCount`: a coerced nonnegative integer, or the empty
string (which the coercion itself already maps to 0, so the union's second
branch is unreachable in practice). -/
def employeeCountErrs : Option String → List String
  | none => []
  | some s =>
    if (coerceIntErrs [(fun n => decide (0 ≤ n), "Employee count must be positive")] (some s)).isEmpty then []
    else if s == "" then []
    else ["Invalid input"]

/-- Fields of `organizationSchema`, in shape order. -/
def organizationFields : List (ZodField OrganizationRaw) :=
  [⟨"name", (fun r => r.name),
    requiredStringErrs
      [(fun s => decide (1 ≤ s.length), "Organization name is required"),
       (fun s => decide (s.length ≤ 200), "Name must be less than 200 characters")]⟩,
   ⟨"website", (fun r => r.website), optionalOrEmptyErrs isUrl⟩,
   ⟨"industry", (fun r => r.industry),
    optionalOrEmptyErrs (fun s => decide (s.length ≤ 100))⟩,
   ⟨"description", (fun r => r.description),
    optionalOrEmptyErrs (fun s => decide (s.length ≤ 2000))⟩,
   ⟨"address", (fun r => r.address),
    optionalOrEmptyErrs (fun s => decide (s.length ≤ 200))⟩,
   ⟨"city", (fun r => r.city),
    optionalOrEmptyErrs (fun s => decide (s.length ≤ 100))⟩,
   ⟨"state", (fun r => r.state),
    optionalOrEmptyErrs (fun s => decide (s.length ≤ 100))⟩,
   ⟨"country", (fun r => r.country),
    optionalOrEmptyErrs (fun s => decide (s.length ≤ 100))⟩,
   ⟨"postalCode", (fun r => r.postalCode),
    optionalOrEmptyErrs (fun s => decide (s.length ≤ 20))⟩,
   ⟨"employeeCount", (fun r => r.employeeCount), employeeCountErrs⟩,
   ⟨"annualRevenue", (fun r => r.annualRevenue),
    coerceIntErrs [(fun n => decide (0 ≤ n), "Amount must be positive")]⟩,
   ⟨"linkedinUrl", (fun r => r.linkedinUrl), optionalOrEmptyErrs isUrl⟩,
   ⟨"logoUrl", (fun r => r.logoUrl), optionalOrEmptyErrs isUrl⟩]

/- ## General lemmas about flattened field-error maps -/

theorem errsFor_append (name : String) (l₁ l₂ : List (String × List String)) :
    errsFor name (l₁ ++ l₂) = errsFor name l₁ ++ errsFor name l₂ := by
  simp [errsFor, List.filter_append]

theorem errsFor_eq_nil_of_not_mem (name : String) (l : List (String × List String))
    (h : ∀ p ∈ l, p.1 ≠ name) : errsFor name l = [] := by
  induction l with
  | nil => rfl
  | cons a t ih =>
    have ha : (a.1 == name) = false := beq_eq_false_iff_ne.mpr (h a (List.mem_cons_self a t))
    have ht : errsFor name t = [] := ih (fun p hp => h p (List.mem_cons_of_mem a hp))
    simpa [errsFor, List.filter_cons, ha] using ht

theorem fieldErrorsOf_cons {R : Type} (g : ZodField R) (gs : List (ZodField R)) (raw : R) :
    fieldErrorsOf (g :: gs) raw =
      (if (g.errs (g.proj raw)).isEmpty then [] else [(g.name, g.errs (g.proj raw))]) ++
        fieldErrorsOf gs raw := by
  by_cases h : (g.errs (g.proj raw)).isEmpty <;>
    simp [fieldErrorsOf, List.filter_cons, h]

theorem name_mem_of_mem_fieldErrorsOf {R : Type} (fields : List (ZodField R)) (raw : R)
    (p : String × List String) (hp : p ∈ fieldErrorsOf fields raw) :
    p.1 ∈ fields.map (fun g => g.name) := by
  have hp' : p ∈ fields.map (fun f => (f.name, f.errs (f.proj raw))) :=
    List.mem_of_mem_filter hp
  rcases List.mem_map.mp hp' with ⟨f, hf, hfp⟩
  exact List.mem_map.mpr ⟨f, hf, by rw [← hfp]⟩

/-- Evaluation of a flattened error map at one field key: for a schema whose
field names are distinct, the entry recorded for a field is exactly the list
of issues its own chain raised (empty lists are left out of the map). -/
theorem errsFor_fieldErrorsOf {R : Type} (fields : List (ZodField R)) (raw : R) (f : ZodField R)
    (hmem : f ∈ fields) (hnd : (fields.map (fun g => g.name)).Nodup) :
    errsFor f.name (fieldErrorsOf fields raw) =
      if (f.errs (f.proj raw)).isEmpty then [] else f.errs (f.proj raw) := by
  induction fields with
  | nil => cases hmem
  | cons g gs ih =>
    rw [List.map_cons, List.nodup_cons] at hnd
    rw [fieldErrorsOf_cons, errsFor_append]
    rcases List.mem_cons.mp hmem with hfg | hmem'
    · subst hfg
      have htail : errsFor f.name (fieldErrorsOf gs raw) = [] := by
        refine errsFor_eq_nil_of_not_mem _ _ (fun p hp => ?_)
        intro hcontra
        exact hnd.1 (hcontra ▸ name_mem_of_mem_fieldErrorsOf gs raw p hp)
      by_cases h : (f.errs (f.proj raw)).isEmpty
      · rw [if_pos h, if_pos h, htail]
        rfl
      · rw [if_neg h, if_neg h, htail, List.append_nil]
        simp [errsFor]
    · have hgf : g.name ≠ f.name := by
        intro hcontra
        exact hnd.1 (hcontra ▸ List.mem_map.mpr ⟨f, hmem', rfl⟩)
      have hhead :
          errsFor f.name
            (if (g.errs (g.proj raw)).isEmpty then [] else [(g.name, g.errs (g.proj raw))]) = [] := by
        by_cases h : (g.errs (g.proj raw)).isEmpty
        · simp [h, errsFor]
        · simp only [h, if_false]
          exact errsFor_eq_nil_of_not_mem _ _ (by simpa using hgf)
      rw [hhead, List.nil_append]
      exact ih hmem' hnd.2

/-- Fieldwise independence of a Zod object schema with no `.refine`: the
entry a field receives in the flattened error map is a function of that
field's raw value alone. -/
theorem fieldErrorsOf_independent {R : Type} (fields : List (ZodField R)) (f : ZodField R)
    (hmem : f ∈ fields) (hnd : (fields.map (fun g => g.name)).Nodup) (x y : R)
    (hproj : f.proj x = f.proj y) :
    errsFor f.name (fieldErrorsOf fields x) = errsFor f.name (fieldErrorsOf fields y) := by
  rw [errsFor_fieldErrorsOf fields x f hmem hnd, errsFor_fieldErrorsOf fields y f hmem hnd, hproj]

theorem fieldErrorsOf_eq_nil {R : Type} (fields : List (ZodField R)) (raw : R)
    (h : fieldErrorsOf fields raw = []) :
    ∀ f ∈ fields, (f.errs (f.proj raw)).isEmpty := by
  intro f hf
  by_contra hne
  have : (f.name, f.errs (f.proj raw)) ∈ fieldErrorsOf fields raw := by
    refine List.mem_filter.mpr ⟨List.mem_map.mpr ⟨f, hf, rfl⟩, ?_⟩
    simpa using hne
  rw [h] at this
  cases this

/- ## Handler lemmas -/

theorem contactMatches_false_of (id uid : String) (db : List Contact)
    (hown : ∀ c ∈ db, c.id = id → c.userId ≠ uid) :
    ∀ c ∈ db, contactMatches id uid c = false := by
  intro c hc
  simp only [contactMatches, decide_eq_false_iff_not]
  rintro ⟨h1, h2⟩
  exact hown c hc h1 h2

theorem map_update_no_match (id uid : String) (now : Nat) (data : ContactUpdateInput)
    (db : List Contact) (h : ∀ c ∈ db, contactMatches id uid c = false) :
    db.map (fun c => if contactMatches id uid c then applyContactUpdate now data c else c) = db := by
  induction db with
  | nil => rfl
  | cons a t ih =>
    have ha := h a (List.mem_cons_self a t)
    have ht := ih (fun c hc => h c (List.mem_cons_of_mem a hc))
    simp [ha, ht]

theorem string_append_not_found : "Contact" ++ " not found" = "Contact not found" := by
  decide

/-- C1. For every authenticated update or delete on a contact id that no row
owned by the caller carries — whether the id belongs to another owner's row
or to no row at all — the handler returns the same structured result
`{success:false, error:"Contact not found"}` and leaves the table unchanged,
so the two cases are indistinguishable to the caller. -/
theorem contact_owner_mismatch_indistinguishable (u : AuthUser) (db : List Contact)
    (id : String) (now : Nat) (raw : ContactRaw) (data : ContactUpdateInput)
    (hraw : contactUpdateSafeParse raw = .ok data)
    (hown : ∀ c ∈ db, c.id = id → c.userId ≠ u.id) :
    (updateContact (some u) db id now raw).result = .failure (some "Contact not found") [] ∧
    (updateContact (some u) db id now raw).db = db ∧
    (deleteContact (some u) db id).result = .failure (some "Contact not found") [] ∧
    (deleteContact (some u) db id).db = db := by
  have hmatch := contactMatches_false_of id u.id db hown
  have hmap := map_update_no_match id u.id now data db hmatch
  have hfilter : db.filter (contactMatches id u.id) = [] :=
    List.filter_eq_nil_iff.mpr (fun c hc => by simp [hmatch c hc])
  have hfilter2 : db.filter (fun c => !contactMatches id u.id c) = db :=
    List.filter_eq_self.mpr (fun c hc => by simp [hmatch c hc])
  refine ⟨?_, ?_, ?_, ?_⟩
  · simp [updateContact, hraw, hmap, hfilter, handleActionError, string_append_not_found]
  · simp [updateContact, hraw, hmap, hfilter]
  · simp [deleteContact, hfilter, hfilter2, handleActionError, string_append_not_found]
  · simp [deleteContact, hfilter, hfilter2]

/-- Witness for C1: user `user-b` targets row `c-1` owned by `user-a`; both
the update and the delete report `Contact not found` and leave the single
row in place. -/
theorem contact_owner_mismatch_indistinguishable_witness :
    (updateContact (some ⟨"user-b", "b@example.com"⟩)
        [{ id := "c-1", userId := "user-a", firstName := "Ann", lastName := "Able",
           email := "ann@example.com", phone := none, title := none, type := "lead",
           organizationId := none, notes := none, linkedinUrl := none, twitterUrl := none,
           createdAt := 0, updatedAt := 0 }]
        "c-1" 5 ⟨none, none, none, none, none, none, none, none, none, none⟩).result =
      .failure (some "Contact not found") [] ∧
    (updateContact (some ⟨"user-b", "b@example.com"⟩)
        [{ id := "c-1", userId := "user-a", firstName := "Ann", lastName := "Able",
           email := "ann@example.com", phone := none, title := none, type := "lead",
           organizationId := none, notes := none, linkedinUrl := none, twitterUrl := none,
           createdAt := 0, updatedAt := 0 }]
        "c-1" 5 ⟨none, none, none, none, none, none, none, none, none, none⟩).db =
      [{ id := "c-1", userId := "user-a", firstName := "Ann", lastName := "Able",
         email := "ann@example.com", phone := none, title := none, type := "lead",
         organizationId := none, notes := none, linkedinUrl := none, twitterUrl := none,
         createdAt := 0, updatedAt := 0 }] ∧
    (deleteContact (some ⟨"user-b", "b@example.com"⟩)
        [{ id := "c-1", userId := "user-a", firstName := "Ann", lastName := "Able",
           email := "ann@example.com", phone := none, title := none, type := "lead",
           organizationId := none, notes := none, linkedinUrl := none, twitterUrl := none,
           createdAt := 0, updatedAt := 0 }]
        "c-1").result = .failure (some "Contact not found") [] ∧
    (deleteContact (some ⟨"user-b", "b@example.com"⟩)
        [{ id := "c-1", userId := "user-a", firstName := "Ann", lastName := "Able",
           email := "ann@example.com", phone := none, title := none, type := "lead",
           organizationId := none, notes := none, linkedinUrl := none, twitterUrl := none,
           createdAt := 0, updatedAt := 0 }]
        "c-1").db =
      [{ id := "c-1", userId := "user-a", firstName := "Ann", lastName := "Able",
         email := "ann@example.com", phone := none, title := none, type := "lead",
         organizationId := none, notes := none, linkedinUrl := none, twitterUrl := none,
         createdAt := 0, updatedAt := 0 }] :=
  contact_owner_mismatch_indistinguishable ⟨"user-b", "b@example.com"⟩ _ "c-1" 5
    ⟨none, none, none, none, none, none, none, none, none, none⟩
    ⟨none, none, none, none, none, none, none, none, none, none⟩
    (by decide) (by decide)

/-- C2. An authenticated create or update whose input fails the contact
schema returns `{success:false, errors}` carrying exactly the per-field
issue map, runs no database statement and invalidates nothing; in
particular `{firstName:"", lastName:"Doe", email:"john@example.com"}`
yields exactly `{firstName:["First name is required"]}`. -/
theorem contact_validation_gate (u : AuthUser) (db : List Contact)
    (newId id : String) (now : Nat) (rawC rawU : ContactRaw)
    (feC feU : List (String × List String))
    (hC : contactSafeParse rawC = .error feC)
    (hU : contactUpdateSafeParse rawU = .error feU) :
    createContact (some u) db newId now rawC = ⟨.failure none feC, db, 0, []⟩ ∧
    updateContact (some u) db id now rawU = ⟨.failure none feU, db, 0, []⟩ ∧
    contactSafeParse
        ⟨some "", some "Doe", some "john@example.com",
         none, none, none, none, none, none, none⟩ =
      .error [("firstName", ["First name is required"])] := by
  refine ⟨?_, ?_, by decide⟩
  · simp [createContact, hC]
  · simp [updateContact, hU]

/-- Witness for C2 at the spec's example input (and an update with a
malformed email). -/
theorem contact_validation_gate_witness :
    createContact (some ⟨"user-a", "a@example.com"⟩) [] "c-9" 3
        ⟨some "", some "Doe", some "john@example.com",
         none, none, none, none, none, none, none⟩ =
      ⟨.failure none [("firstName", ["First name is required"])], [], 0, []⟩ ∧
    updateContact (some ⟨"user-a", "a@example.com"⟩) [] "c-9" 3
        ⟨none, none, some "not-an-email", none, none, none, none, none, none, none⟩ =
      ⟨.failure none [("email", ["Invalid email address"])], [], 0, []⟩ :=
  ⟨(contact_validation_gate ⟨"user-a", "a@example.com"⟩ [] "c-9" "c-9" 3
      ⟨some "", some "Doe", some "john@example.com",
       none, none, none, none, none, none, none⟩
      ⟨none, none, some "not-an-email", none, none, none, none, none, none, none⟩
      [("firstName", ["First name is required"])]
      [("email", ["Invalid email address"])]
      (by decide) (by decide)).1,
   (contact_validation_gate ⟨"user-a", "a@example.com"⟩ [] "c-9" "c-9" 3
      ⟨some "", some "Doe", some "john@example.com",
       none, none, none, none, none, none, none⟩
      ⟨none, none, some "not-an-email", none, none, none, none, none, none, none⟩
      [("firstName", ["First name is required"])]
      [("email", ["Invalid email address"])]
      (by decide) (by decide)).2.1⟩

/-- C6. When the Session Validator yields no identity, every contact
mutation handler returns `{success:false, error:"You must be logged in to
perform this action"}` and performs no further work: the table is unchanged,
no statement runs, nothing is revalidated. -/
theorem unauthenticated_mutation_noop (db : List Contact) (newId id did : String)
    (now : Nat) (rawC rawU : ContactRaw) :
    createContact none db newId now rawC =
      ⟨.failure (some "You must be logged in to perform this action") [], db, 0, []⟩ ∧
    updateContact none db id now rawU =
      ⟨.failure (some "You must be logged in to perform this action") [], db, 0, []⟩ ∧
    deleteContact none db did =
      ⟨.failure (some "You must be logged in to perform this action") [], db, 0, []⟩ :=
  ⟨rfl, rfl, rfl⟩

/-- C7. Deleting an owned record twice yields success on the first call and
the structured `Contact not found` result on the second; the second call is
an ordinary structured failure, not a fault. -/
theorem delete_twice_success_then_not_found (u : AuthUser) (db : List Contact)
    (id : String) (c : Contact) (hmem : c ∈ db) (hid : c.id = id) (huid : c.userId = u.id) :
    (deleteContact (some u) db id).result = .success none (some "Contact deleted successfully") ∧
    (deleteContact (some u) (deleteContact (some u) db id).db id).result =
      .failure (some "Contact not found") [] := by
  have hc : contactMatches id u.id c = true := by
    simp [contactMatches, hid, huid]
  have hmemf : c ∈ db.filter (contactMatches id u.id) := List.mem_filter.mpr ⟨hmem, hc⟩
  have hne : db.filter (contactMatches id u.id) ≠ [] := List.ne_nil_of_mem hmemf
  have hlen : ((db.filter (contactMatches id u.id)).length == 0) = false := by
    simpa [List.length_eq_zero] using hne
  have hdb : (deleteContact (some u) db id).db =
      db.filter (fun x => !contactMatches id u.id x) := by
    simp only [deleteContact]
    by_cases h : ((db.filter (contactMatches id u.id)).length == 0) = true <;> simp [h]
  have hnil : (db.filter (fun x => !contactMatches id u.id x)).filter
      (contactMatches id u.id) = [] := by
    refine List.filter_eq_nil_iff.mpr (fun x hx => ?_)
    have := (List.mem_filter.mp hx).2
    simp only [Bool.not_eq_true'] at this
    simp [this]
  constructor
  · simp [deleteContact, hlen]
  · rw [hdb]
    simp [deleteContact, hnil, handleActionError, string_append_not_found]

/-- Witness for C7: a single owned row, deleted twice. -/
theorem delete_twice_success_then_not_found_witness :
    (deleteContact (some ⟨"user-a", "a@example.com"⟩)
        [{ id := "c-1", userId := "user-a", firstName := "Ann", lastName := "Able",
           email := "ann@example.com", phone := none, title := none, type := "lead",
           organizationId := none, notes := none, linkedinUrl := none, twitterUrl := none,
           createdAt := 0, updatedAt := 0 }] "c-1").result =
      .success none (some "Contact deleted successfully") ∧
    (deleteContact (some ⟨"user-a", "a@example.com"⟩)
        (deleteContact (some ⟨"user-a", "a@example.com"⟩)
          [{ id := "c-1", userId := "user-a", firstName := "Ann", lastName := "Able",
             email := "ann@example.com", phone := none, title := none, type := "lead",
             organizationId := none, notes := none, linkedinUrl := none, twitterUrl := none,
             createdAt := 0, updatedAt := 0 }] "c-1").db "c-1").result =
      .failure (some "Contact not found") [] :=
  delete_twice_success_then_not_found ⟨"user-a", "a@example.com"⟩ _ "c-1"
    { id := "c-1", userId := "user-a", firstName := "Ann", lastName := "Able",
      email := "ann@example.com", phone := none, title := none, type := "lead",
      organizationId := none, notes := none, linkedinUrl := none, twitterUrl := none,
      createdAt := 0, updatedAt := 0 }
    (List.mem_cons_self _ _) rfl rfl

/-- Counterexample to C4. A request carrying a signature header that nothing
has verified (the Stripe verification block is commented out in the source)
is not rejected: it receives the HTTP 200 placeholder acknowledgment with
`received:true`, not an error response. -/
theorem webhook_unverified_signature_accepted_cex :
    webhookPOST ⟨"{}", some "t=1,v1=bogus"⟩ =
      ⟨.jsonOk "Stripe webhook endpoint ready. Configure Stripe to enable." true, []⟩ ∧
    (webhookPOST ⟨"{}", some "t=1,v1=bogus"⟩).response.isError = false := by
  decide

/-- C4 as amended. The endpoint checks only that the `stripe-signature`
header is present and nonempty (the JS falsiness of `if (!signature)`): a
request whose header is missing or empty is rejected with the 400 error
response, a request carrying a nonempty header gets the placeholder
acknowledgment; no signature contents are verified, and no events are
processed (no side effects) on any path, verified or not. -/
theorem webhook_placeholder_behavior (req : WebhookRequest) :
    (webhookPOST req).processedEvents = [] ∧
    (jsFalsy req.stripeSignature = true →
      webhookPOST req = ⟨.jsonError "Missing stripe-signature header" 400, []⟩) ∧
    (∀ s, req.stripeSignature = some s → s ≠ "" →
      webhookPOST req =
        ⟨.jsonOk "Stripe webhook endpoint ready. Configure Stripe to enable." true, []⟩) := by
  refine ⟨?_, ?_, ?_⟩
  · by_cases h : jsFalsy req.stripeSignature = true <;> simp [webhookPOST, h]
  · intro h
    simp [webhookPOST, h]
  · intro s h hne
    have hf : jsFalsy req.stripeSignature = false := by
      rw [h]
      simpa [jsFalsy] using hne
    simp [webhookPOST, hf]

/-- Witness for C4's amended statement: missing and empty headers are
rejected with the 400 error, a nonempty header gets the placeholder. -/
theorem webhook_placeholder_behavior_witness :
    webhookPOST ⟨"{}", none⟩ = ⟨.jsonError "Missing stripe-signature header" 400, []⟩ ∧
    webhookPOST ⟨"{}", some ""⟩ = ⟨.jsonError "Missing stripe-signature header" 400, []⟩ ∧
    webhookPOST ⟨"{}", some "t=1,v1=abc"⟩ =
      ⟨.jsonOk "Stripe webhook endpoint ready. Configure Stripe to enable." true, []⟩ :=
  ⟨(webhook_placeholder_behavior ⟨"{}", none⟩).2.1 (by decide),
   (webhook_placeholder_behavior ⟨"{}", some ""⟩).2.1 (by decide),
   (webhook_placeholder_behavior ⟨"{}", some "t=1,v1=abc"⟩).2.2 "t=1,v1=abc" rfl (by decide)⟩

/-- Counterexample to C5. An authenticated request to `/login` carrying
`redirectTo=/contacts` is redirected to `/contacts`, not to the default
landing path `/dashboard`. -/
theorem auth_route_redirect_target_cex :
    updateSession (some ⟨"user-a", "a@example.com"⟩) ⟨"/login", some "/contacts"⟩ =
      .redirect "/contacts" none ∧
    ("/contacts" : String) ≠ "/dashboard" := by
  decide

/-- C5 as amended. For every request to an auth-only path with a verified
identity present, the guard redirects to
`searchParams.get('redirectTo') || '/dashboard'`: the `redirectTo` query
parameter when it is present and nonempty, and the default landing path
`/dashboard` when the parameter is missing or empty, dropping the parameter
from the destination. -/
theorem auth_route_redirect_amended (u : AuthUser) (req : GuardRequest)
    (hauth : authRoutes.any (fun r => strStartsWith req.pathname r) = true) :
    updateSession (some u) req = .redirect (jsOrElse req.redirectToParam "/dashboard") none ∧
    (∀ s, req.redirectToParam = some s → s ≠ "" →
      updateSession (some u) req = .redirect s none) ∧
    ((req.redirectToParam = none ∨ req.redirectToParam = some "") →
      updateSession (some u) req = .redirect "/dashboard" none) := by
  have hmain : updateSession (some u) req =
      .redirect (jsOrElse req.redirectToParam "/dashboard") none := by
    simp [updateSession, hauth]
  refine ⟨hmain, ?_, ?_⟩
  · intro s h hne
    rw [hmain, h]
    simp [jsOrElse, jsFalsy, hne]
  · rintro (h | h) <;> rw [hmain, h] <;> rfl

/-- Witness for C5's amended statement: `/login` with a missing or empty
`redirectTo` parameter redirects to `/dashboard`; a nonempty parameter is
honoured. -/
theorem auth_route_redirect_amended_witness :
    updateSession (some ⟨"user-a", "a@example.com"⟩) ⟨"/login", none⟩ =
      .redirect "/dashboard" none ∧
    updateSession (some ⟨"user-a", "a@example.com"⟩) ⟨"/login", some ""⟩ =
      .redirect "/dashboard" none ∧
    updateSession (some ⟨"user-a", "a@example.com"⟩) ⟨"/login", some "/deals"⟩ =
      .redirect "/deals" none :=
  ⟨(auth_route_redirect_amended ⟨"user-a", "a@example.com"⟩ ⟨"/login", none⟩
      (by decide)).2.2 (Or.inl rfl),
   (auth_route_redirect_amended ⟨"user-a", "a@example.com"⟩ ⟨"/login", some ""⟩
      (by decide)).2.2 (Or.inr rfl),
   (auth_route_redirect_amended ⟨"user-a", "a@example.com"⟩ ⟨"/login", some "/deals"⟩
      (by decide)).2.1 "/deals" rfl (by decide)⟩

/-- C8. For every request to a path with a protected prefix and no verified
identity, the guard redirects to `/login` carrying the original path in the
`redirectTo` query parameter. -/
theorem protected_route_login_redirect (req : GuardRequest)
    (hprot : protectedRoutes.any (fun r => strStartsWith req.pathname r) = true) :
    updateSession none req = .redirect "/login" (some req.pathname) := by
  simp [updateSession, hprot]

/-- Witness for C8 at `/contacts/abc-123`. -/
theorem protected_route_login_redirect_witness :
    updateSession none ⟨"/contacts/abc-123", none⟩ =
      .redirect "/login" (some "/contacts/abc-123") :=
  protected_route_login_redirect ⟨"/contacts/abc-123", none⟩ (by decide)

/- ## Cross-field analysis of the refined auth schemas -/

theorem errsFor_refineResult (name : String) (h : name ≠ "confirmPassword") (b : Bool) :
    errsFor name (if b then [] else [("confirmPassword", ["Passwords do not match"])]) = [] := by
  cases b
  · exact errsFor_eq_nil_of_not_mem _ _ (by simpa using fun hc => h hc.symm)
  · rfl

/-- Counterexample to C9. The reset-password schema also cross-validates:
two inputs with the same `confirmPassword` value receive different
`confirmPassword` error entries depending on the `password` field, outside
the registration schema. -/
theorem reset_password_cross_field_cex :
    errsFor "confirmPassword"
        (resetPasswordErrors ⟨some "Password123", some "Password123"⟩) = [] ∧
    errsFor "confirmPassword"
        (resetPasswordErrors ⟨some "Different123", some "Password123"⟩) =
      ["Passwords do not match"] ∧
    (⟨some "Password123", some "Password123"⟩ : ResetPasswordRaw).confirmPassword =
      (⟨some "Different123", some "Password123"⟩ : ResetPasswordRaw).confirmPassword := by
  decide

/-- C9 as amended. Across the schema validators, each field's entry in the
flattened error map is a function of that field's own raw value, with two
exceptions — the password-confirmation equality refinements of the
registration schema and of the reset-password schema, whose extra
`confirmPassword` entry is exactly the `Passwords do not match` issue raised
when the per-field checks pass but `password` differs from
`confirmPassword`. -/
theorem schema_field_independence_amended :
    (∀ f ∈ contactFields, ∀ x y : ContactRaw, f.proj x = f.proj y →
      errsFor f.name (fieldErrorsOf contactFields x) =
        errsFor f.name (fieldErrorsOf contactFields y)) ∧
    (∀ f ∈ contactUpdateFields, ∀ x y : ContactRaw, f.proj x = f.proj y →
      errsFor f.name (fieldErrorsOf contactUpdateFields x) =
        errsFor f.name (fieldErrorsOf contactUpdateFields y)) ∧
    (∀ f ∈ dealFields, ∀ x y : DealRaw, f.proj x = f.proj y →
      errsFor f.name (fieldErrorsOf dealFields x) =
        errsFor f.name (fieldErrorsOf dealFields y)) ∧
    (∀ f ∈ organizationFields, ∀ x y : OrganizationRaw, f.proj x = f.proj y →
      errsFor f.name (fieldErrorsOf organizationFields x) =
        errsFor f.name (fieldErrorsOf organizationFields y)) ∧
    (∀ f ∈ loginFields, ∀ x y : LoginRaw, f.proj x = f.proj y →
      errsFor f.name (fieldErrorsOf loginFields x) =
        errsFor f.name (fieldErrorsOf loginFields y)) ∧
    (∀ f ∈ forgotPasswordFields, ∀ x y : ForgotPasswordRaw, f.proj x = f.proj y →
      errsFor f.name (fieldErrorsOf forgotPasswordFields x) =
        errsFor f.name (fieldErrorsOf forgotPasswordFields y)) ∧
    (∀ f ∈ updateProfileFields, ∀ x y : UpdateProfileRaw, f.proj x = f.proj y →
      errsFor f.name (fieldErrorsOf updateProfileFields x) =
        errsFor f.name (fieldErrorsOf updateProfileFields y)) ∧
    (∀ f ∈ registerFields, f.name ≠ "confirmPassword" → ∀ x y : RegisterRaw,
      f.proj x = f.proj y →
      errsFor f.name (registerErrors x) = errsFor f.name (registerErrors y)) ∧
    (∀ x : RegisterRaw, fieldErrorsOf registerFields x = [] →
      registerErrors x = if x.password == x.confirmPassword then []
        else [("confirmPassword", ["Passwords do not match"])]) ∧
    (∀ f ∈ resetPasswordFields, f.name ≠ "confirmPassword" → ∀ x y : ResetPasswordRaw,
      f.proj x = f.proj y →
      errsFor f.name (resetPasswordErrors x) = errsFor f.name (resetPasswordErrors y)) ∧
    (∀ x : ResetPasswordRaw, fieldErrorsOf resetPasswordFields x = [] →
      resetPasswordErrors x = if x.password == x.confirmPassword then []
        else [("confirmPassword", ["Passwords do not match"])]) := by
  refine ⟨fun f hf x y hp => fieldErrorsOf_independent _ f hf (by decide) x y hp,
          fun f hf x y hp => fieldErrorsOf_independent _ f hf (by decide) x y hp,
          fun f hf x y hp => fieldErrorsOf_independent _ f hf (by decide) x y hp,
          fun f hf x y hp => fieldErrorsOf_independent _ f hf (by decide) x y hp,
          fun f hf x y hp => fieldErrorsOf_independent _ f hf (by decide) x y hp,
          fun f hf x y hp => fieldErrorsOf_independent _ f hf (by decide) x y hp,
          fun f hf x y hp => fieldErrorsOf_independent _ f hf (by decide) x y hp,
          ?_, ?_, ?_, ?_⟩
  · intro f hf hne x y hp
    cases hx : fieldErrorsOf registerFields x <;> cases hy : fieldErrorsOf registerFields y
    · simp only [registerErrors, hx, hy]
      rw [errsFor_refineResult f.name hne, errsFor_refineResult f.name hne]
    · simp only [registerErrors, hx, hy]
      rw [errsFor_refineResult f.name hne, ← hy,
          errsFor_fieldErrorsOf registerFields y f hf (by decide), ← hp]
      have := fieldErrorsOf_eq_nil registerFields x hx f hf
      simp [this]
    · simp only [registerErrors, hx, hy]
      rw [errsFor_refineResult f.name hne, ← hx,
          errsFor_fieldErrorsOf registerFields x f hf (by decide), hp]
      have := fieldErrorsOf_eq_nil registerFields y hy f hf
      simp [this]
    · simp only [registerErrors, hx, hy]
      rw [← hx, ← hy]
      exact fieldErrorsOf_independent _ f hf (by decide) x y hp
  · intro x h
    simp only [registerErrors, h]
  · intro f hf hne x y hp
    cases hx : fieldErrorsOf resetPasswordFields x <;>
      cases hy : fieldErrorsOf resetPasswordFields y
    · simp only [resetPasswordErrors, hx, hy]
      rw [errsFor_refineResult f.name hne, errsFor_refineResult f.name hne]
    · simp only [resetPasswordErrors, hx, hy]
      rw [errsFor_refineResult f.name hne, ← hy,
          errsFor_fieldErrorsOf resetPasswordFields y f hf (by decide), ← hp]
      have := fieldErrorsOf_eq_nil resetPasswordFields x hx f hf
      simp [this]
    · simp only [resetPasswordErrors, hx, hy]
      rw [errsFor_refineResult f.name hne, ← hx,
          errsFor_fieldErrorsOf resetPasswordFields x f hf (by decide), hp]
      have := fieldErrorsOf_eq_nil resetPasswordFields y hy f hf
      simp [this]
    · simp only [resetPasswordErrors, hx, hy]
      rw [← hx, ← hy]
      exact fieldErrorsOf_independent _ f hf (by decide) x y hp
  · intro x h
    simp only [resetPasswordErrors, h]

/-- Witness for C9's amended statement: independence of the contact `phone`
entry under a change of every other field, and the characterized refine
outcome on a mismatching registration. -/
theorem schema_field_independence_amended_witness :
    errsFor "phone"
        (fieldErrorsOf contactFields
          ⟨some "John", some "Doe", some "john@example.com", some "+12025550123",
           none, none, none, none, none, none⟩) =
      errsFor "phone"
        (fieldErrorsOf contactFields
          ⟨some "", some "", some "nope", some "+12025550123",
           some "CEO", some "vendor", none, some "hi", none, none⟩) ∧
    registerErrors
        ⟨some "a@example.com", some "Password123", some "Different123", some "Ann Able"⟩ =
      [("confirmPassword", ["Passwords do not match"])] := by
  constructor
  · exact schema_field_independence_amended.1
      ⟨"phone", (fun r => r.phone), optionalOrEmptyErrs isPhone⟩
      (by simp [contactFields])
      ⟨some "John", some "Doe", some "john@example.com", some "+12025550123",
       none, none, none, none, none, none⟩
      ⟨some "", some "", some "nope", some "+12025550123",
       some "CEO", some "vendor", none, some "hi", none, none⟩
      rfl
  · have h := schema_field_independence_amended.2.2.2.2.2.2.2.2.1
      ⟨some "a@example.com", some "Password123", some "Different123", some "Ann Able"⟩
      (by decide)
    rw [h]
    decide

/- ## Empty-string normalization of optional fields -/

theorem contactSafeParse_ok_eq (raw : ContactRaw) (d : ContactInput)
    (hd : contactSafeParse raw = .ok d) : d = contactValue raw := by
  unfold contactSafeParse at hd
  cases hfe : fieldErrorsOf contactFields raw <;> rw [hfe] at hd
  · injection hd with h
    exact h.symm
  · simp at hd

theorem dealSafeParse_ok_eq (raw : DealRaw) (d : DealInput)
    (hd : dealSafeParse raw = .ok d) : d = dealValueOf raw := by
  unfold dealSafeParse at hd
  cases hfe : fieldErrorsOf dealFields raw <;> rw [hfe] at hd
  · injection hd with h
    exact h.symm
  · simp at hd

/-- C10. Each optional string field of the entity schemas (`phone`, `title`,
`organizationId`, `notes`, `linkedinUrl`, `twitterUrl` on contacts;
`description` on deals) accepts the empty string without raising any issue
for the field, and a successful parse normalizes it to an absent value, so
an empty form field neither trips the field's format check nor reaches the
database as an empty string. -/
theorem empty_string_optional_normalized (raw : ContactRaw) (draw : DealRaw) :
    (raw.phone = some "" →
      errsFor "phone" (fieldErrorsOf contactFields raw) = [] ∧
      ∀ d, contactSafeParse raw = .ok d → d.phone = none) ∧
    (raw.title = some "" →
      errsFor "title" (fieldErrorsOf contactFields raw) = [] ∧
      ∀ d, contactSafeParse raw = .ok d → d.title = none) ∧
    (raw.organizationId = some "" →
      errsFor "organizationId" (fieldErrorsOf contactFields raw) = [] ∧
      ∀ d, contactSafeParse raw = .ok d → d.organizationId = none) ∧
    (raw.notes = some "" →
      errsFor "notes" (fieldErrorsOf contactFields raw) = [] ∧
      ∀ d, contactSafeParse raw = .ok d → d.notes = none) ∧
    (raw.linkedinUrl = some "" →
      errsFor "linkedinUrl" (fieldErrorsOf contactFields raw) = [] ∧
      ∀ d, contactSafeParse raw = .ok d → d.linkedinUrl = none) ∧
    (raw.twitterUrl = some "" →
      errsFor "twitterUrl" (fieldErrorsOf contactFields raw) = [] ∧
      ∀ d, contactSafeParse raw = .ok d → d.twitterUrl = none) ∧
    (draw.description = some "" →
      errsFor "description" (fieldErrorsOf dealFields draw) = [] ∧
      ∀ d, dealSafeParse draw = .ok d → d.description = none) := by
  refine ⟨fun h => ⟨?_, ?_⟩, fun h => ⟨?_, ?_⟩, fun h => ⟨?_, ?_⟩, fun h => ⟨?_, ?_⟩,
          fun h => ⟨?_, ?_⟩, fun h => ⟨?_, ?_⟩, fun h => ⟨?_, ?_⟩⟩
  · have e : errsFor "phone" (fieldErrorsOf contactFields raw) =
        if (optionalOrEmptyErrs isPhone raw.phone).isEmpty then []
        else optionalOrEmptyErrs isPhone raw.phone :=
      errsFor_fieldErrorsOf contactFields raw
        ⟨"phone", (fun r => r.phone), optionalOrEmptyErrs isPhone⟩
        (by simp [contactFields]) (by decide)
    rw [e, h]
    decide
  · intro d hd
    rw [contactSafeParse_ok_eq raw d hd]
    simp [contactValue, h, optionalOrEmptyValue]
  · have e : errsFor "title" (fieldErrorsOf contactFields raw) =
        if (optionalOrEmptyErrs (fun s => decide (s.length ≤ 100)) raw.title).isEmpty then []
        else optionalOrEmptyErrs (fun s => decide (s.length ≤ 100)) raw.title :=
      errsFor_fieldErrorsOf contactFields raw
        ⟨"title", (fun r => r.title), optionalOrEmptyErrs (fun s => decide (s.length ≤ 100))⟩
        (by simp [contactFields]) (by decide)
    rw [e, h]
    decide
  · intro d hd
    rw [contactSafeParse_ok_eq raw d hd]
    simp [contactValue, h, optionalOrEmptyValue]
  · have e : errsFor "organizationId" (fieldErrorsOf contactFields raw) =
        if (optionalOrEmptyErrs isUuid raw.organizationId).isEmpty then []
        else optionalOrEmptyErrs isUuid raw.organizationId :=
      errsFor_fieldErrorsOf contactFields raw
        ⟨"organizationId", (fun r => r.organizationId), optionalOrEmptyErrs isUuid⟩
        (by simp [contactFields]) (by decide)
    rw [e, h]
    decide
  · intro d hd
    rw [contactSafeParse_ok_eq raw d hd]
    simp [contactValue, h, optionalOrEmptyValue]
  · have e : errsFor "notes" (fieldErrorsOf contactFields raw) =
        if (optionalOrEmptyErrs (fun s => decide (s.length ≤ 2000)) raw.notes).isEmpty then []
        else optionalOrEmptyErrs (fun s => decide (s.length ≤ 2000)) raw.notes :=
      errsFor_fieldErrorsOf contactFields raw
        ⟨"notes", (fun r => r.notes), optionalOrEmptyErrs (fun s => decide (s.length ≤ 2000))⟩
        (by simp [contactFields]) (by decide)
    rw [e, h]
    decide
  · intro d hd
    rw [contactSafeParse_ok_eq raw d hd]
    simp [contactValue, h, optionalOrEmptyValue]
  · have e : errsFor "linkedinUrl" (fieldErrorsOf contactFields raw) =
        if (optionalOrEmptyErrs isUrl raw.linkedinUrl).isEmpty then []
        else optionalOrEmptyErrs isUrl raw.linkedinUrl :=
      errsFor_fieldErrorsOf contactFields raw
        ⟨"linkedinUrl", (fun r => r.linkedinUrl), optionalOrEmptyErrs isUrl⟩
        (by simp [contactFields]) (by decide)
    rw [e, h]
    decide
  · intro d hd
    rw [contactSafeParse_ok_eq raw d hd]
    simp [contactValue, h, optionalOrEmptyValue]
  · have e : errsFor "twitterUrl" (fieldErrorsOf contactFields raw) =
        if (optionalOrEmptyErrs isUrl raw.twitterUrl).isEmpty then []
        else optionalOrEmptyErrs isUrl raw.twitterUrl :=
      errsFor_fieldErrorsOf contactFields raw
        ⟨"twitterUrl", (fun r => r.twitterUrl), optionalOrEmptyErrs isUrl⟩
        (by simp [contactFields]) (by decide)
    rw [e, h]
    decide
  · intro d hd
    rw [contactSafeParse_ok_eq raw d hd]
    simp [contactValue, h, optionalOrEmptyValue]
  · have e : errsFor "description" (fieldErrorsOf dealFields draw) =
        if (optionalOrEmptyErrs (fun s => decide (s.length ≤ 2000)) draw.description).isEmpty then []
        else optionalOrEmptyErrs (fun s => decide (s.length ≤ 2000)) draw.description :=
      errsFor_fieldErrorsOf dealFields draw
        ⟨"description", (fun r => r.description),
         optionalOrEmptyErrs (fun s => decide (s.length ≤ 2000))⟩
        (by simp [dealFields]) (by decide)
    rw [e, h]
    decide
  · intro d hd
    rw [dealSafeParse_ok_eq draw d hd]
    simp [dealValueOf, h, optionalOrEmptyValue]

/-- Witness for C10: a contact with every optional field submitted empty and
a deal with an empty description; all such fields raise no issue and parse
to absent values. -/
theorem empty_string_optional_normalized_witness :
    errsFor "phone"
        (fieldErrorsOf contactFields
          ⟨some "John", some "Doe", some "john@example.com", some "", some "",
           none, some "", some "", some "", some ""⟩) = [] ∧
    (contactValue
        ⟨some "John", some "Doe", some "john@example.com", some "", some "",
         none, some "", some "", some "", some ""⟩).phone = none ∧
    errsFor "description"
        (fieldErrorsOf dealFields
          ⟨some "Big deal", some "", none, none, none, none, none, none, none, none⟩) = [] ∧
    (dealValueOf
        ⟨some "Big deal", some "", none, none, none, none, none, none, none, none⟩).description =
      none :=
  ⟨((empty_string_optional_normalized
      ⟨some "John", some "Doe", some "john@example.com", some "", some "",
       none, some "", some "", some "", some ""⟩
      ⟨some "Big deal", some "", none, none, none, none, none, none, none, none⟩).1 rfl).1,
   ((empty_string_optional_normalized
      ⟨some "John", some "Doe", some "john@example.com", some "", some "",
       none, some "", some "", some "", some ""⟩
      ⟨some "Big deal", some "", none, none, none, none, none, none, none, none⟩).1 rfl).2
     _ (by decide),
   ((empty_string_optional_normalized
      ⟨some "John", some "Doe", some "john@example.com", some "", some "",
       none, some "", some "", some "", some ""⟩
      ⟨some "Big deal", some "", none, none, none, none, none, none, none, none⟩).2.2.2.2.2.2 rfl).1,
   ((empty_string_optional_normalized
      ⟨some "John", some "Doe", some "john@example.com", some "", some "",
       none, some "", some "", some "", some ""⟩
      ⟨some "Big deal", some "", none, none, none, none, none, none, none, none⟩).2.2.2.2.2.2 rfl).2
     _ (by decide)⟩
